import Mathlib

/-!
Verification development for the `prusa-rpi0-hq-cam` repository.

Part 1 models the MJPEG framing loop of `StreamingHandler.stream_video`
in `src/camera_stream.py` (lines 109-139).  The byte stream read from the
camera process's stdout is a `List Nat` (one `Nat` per byte); the loop is
embedded as a pure function returning the list of frames written to the
viewer connection.  `process.stdout.read(k)` is modelled as taking the next
`k` available bytes (the empty read signalling end of stream).

Part 2 models the session/capture/upload logic of `CameraService` in
`src/camera_service.py`: the mutable service attributes become an explicit
state record, and the interaction with the external world (the
`libcamera-still` subprocess, the wall clock, the HTTP response) is passed
in as explicit parameters, so every method becomes a state-passing
function.
-/

namespace PrusaCam

set_option maxRecDepth 8000

/-- Inner loop of `stream_video` (`camera_stream.py` lines 118-125):
`frame = b'\xff\xd8'` followed by reading one byte at a time, appending it,
and stopping when the last two bytes of the frame are `0xFF 0xD9`
(`frame[-2:] == b'\xff\xd9'`) or the stream ends (`if not byte: break`).
The accumulator `racc` holds the frame bytes in reverse, so the previously
read byte is `racc.head?`.  Returns the completed frame (in order) and the
unread remainder of the stream. -/
def scanToEOI : List Nat → List Nat → List Nat × List Nat
  | racc, [] => (racc.reverse, [])
  | racc, b :: rest =>
    if b = 0xD9 ∧ racc.head? = some 0xFF then ((b :: racc).reverse, rest)
    else scanToEOI (b :: racc) rest

/-- Outer framing loop of `stream_video` (`camera_stream.py` lines 109-139),
with a fuel argument for structural termination.  Each iteration reads two
bytes looking for the JPEG start-of-image marker `0xFF 0xD8` (`read(2)`);
on end of stream (`not data`) it stops; on a non-marker read it loops.
Once the marker is found, the inner loop (`scanToEOI`) accumulates the
frame; a candidate of fewer than 100 bytes is dropped
(`if not frame or len(frame) < 100: continue`), otherwise the frame is
written to the viewer.  The result is the list of frames written, in order.
Each iteration consumes at least two bytes, so fuel equal to the stream
length never runs out (`streamLoop_fuel`). -/
def streamLoop : Nat → List Nat → List (List Nat)
  | _, [] => []
  | _, [_] => []
  | 0, _ :: _ :: _ => []
  | fuel + 1, b0 :: b1 :: rest =>
    if b0 = 0xFF ∧ b1 = 0xD8 then
      let p := scanToEOI [0xD8, 0xFF] rest
      if p.1.length < 100 then streamLoop fuel p.2
      else p.1 :: streamLoop fuel p.2
    else streamLoop fuel rest

/-- The framing loop of `stream_video`, mapping the bytes read from the
camera process to the list of frames written to the viewer connection. -/
def stream_video (s : List Nat) : List (List Nat) := streamLoop s.length s

/-- Whether the bytes `x` and `y` occur adjacently (in this order) somewhere
in the list: used to state the presence or absence of a two-byte JPEG
marker in a stream. -/
def hasPair (x y : Nat) : List Nat → Bool
  | a :: b :: t => if a = x ∧ b = y then true else hasPair x y (b :: t)
  | _ => false

/-- A noise prefix that the marker search of the outer loop steps over
without ever matching: it has even length (the outer loop consumes the
stream two bytes at a time) and none of its 2-byte-aligned pairs is the
start marker `0xFF 0xD8`. -/
def noAlignedStart : List Nat → Bool
  | [] => true
  | [_] => false
  | a :: b :: t => if a = 0xFF ∧ b = 0xD8 then false else noAlignedStart t

/-- The bytes of an ASCII string, as written by `wfile.write(....encode())`. -/
def strBytes (s : String) : List Nat := s.data.map Char.toNat

/-- The exact bytes written to the viewer connection for one frame
(`camera_stream.py` lines 132-136): the five `self.wfile.write` calls of
the send block, concatenated in program order. -/
def frameWrite (frame : List Nat) : List Nat :=
  strBytes "--FRAME\r\n"
    ++ strBytes "Content-Type: image/jpeg\r\n"
    ++ strBytes ("Content-Length: " ++ toString frame.length ++ "\r\n\r\n")
    ++ frame ++ strBytes "\r\n"

/-- The multipart chunk as the spec words it: boundary line, content-type
header, a content-length header carrying the exact frame byte count, a
blank line, the raw frame bytes, and a trailing line separator. -/
def multipartChunk (frame : List Nat) : List Nat :=
  strBytes "--FRAME\r\n"
    ++ strBytes "Content-Type: image/jpeg\r\n"
    ++ strBytes ("Content-Length: " ++ toString frame.length ++ "\r\n")
    ++ strBytes "\r\n"
    ++ frame ++ strBytes "\r\n"

/-- A minimal well-formed JPEG buffer for concrete test streams: start
marker, 96 zero bytes, end marker — 100 bytes, exactly the minimum frame
size accepted by the loop. -/
def jpegA : List Nat := 0xFF :: 0xD8 :: List.replicate 96 0 ++ [0xFF, 0xD9]

/-! ### Part 2: the capture service (`src/camera_service.py`) -/

/-- Result of running the external `libcamera-still` command in
`_capture_image`: it completes and writes the file (`subprocess.run`
returns), raises `subprocess.TimeoutExpired`, or raises any other
exception (non-zero exit via `check=True`, or an I/O error). -/
inductive CaptureOutcome
  | success
  | timeout
  | cmdError
deriving DecidableEq, Repr

/-- Result of the HTTP transfer in `_upload_to_prusa_connect`: a response
with a status code, or an exception (transport error, file I/O error). -/
inductive HttpResult
  | status (code : Nat)
  | transportError
deriving DecidableEq, Repr

/-- The configuration values read by the modelled methods.
`filename_pattern` is the already-interpreted pattern: the name produced
for a given counter value (the source interpolates `counter`, `timestamp`,
`date` and `time`; the claims only exercise the counter).  `token_ok`
states that a Prusa Connect token is configured and is not the
placeholder. -/
structure Config where
  filename_pattern : Nat → String
  layer_enabled : Bool
  time_enabled : Bool
  only_during_print : Bool
  prusa_enabled : Bool
  token_ok : Bool
  upload_interval : Int

/-- The mutable attributes of `CameraService` that the claims are about,
plus the externally visible artefacts: session directories are numbered
`0, 1, 2, …` in creation order (`next_dir` is the next fresh number),
`files` lists the image files successfully written as
(session directory, filename) pairs, and `total_images` is the
`total_images` field of the current session's `metadata.json` (absent
until session end writes it). -/
structure ServiceState where
  print_active : Bool
  capture_counter : Nat
  current_session_dir : Option Nat
  next_dir : Nat
  last_upload_time : Int
  files : List (Nat × String)
  total_images : Option Nat
deriving DecidableEq, Repr

/-- The state after `__init__` (`camera_service.py` lines 39-43). -/
def initState : ServiceState :=
  { print_active := false
    capture_counter := 0
    current_session_dir := none
    next_dir := 0
    last_upload_time := 0
    files := []
    total_images := none }

/-- Model of `_start_print_session` (`camera_service.py` lines 191-219): set
`print_active`, reset `capture_counter` to 0, create a fresh session
directory, write initial metadata (no `total_images` field yet). -/
def start_print_session (s : ServiceState) : ServiceState :=
  { s with
    print_active := true
    capture_counter := 0
    current_session_dir := some s.next_dir
    next_dir := s.next_dir + 1
    total_images := none }

/-- Model of `_end_print_session` (`camera_service.py` lines 221-241): a no-op when
no session is active; otherwise update the session metadata with
`total_images := capture_counter` (only when a session directory exists)
and clear `print_active`.  The session directory reference is NOT
cleared. -/
def end_print_session (s : ServiceState) : ServiceState :=
  if s.print_active = false then s
  else
    { s with
      print_active := false
      total_images :=
        if s.current_session_dir.isSome then some s.capture_counter
        else s.total_images }

/-- Model of `_upload_to_prusa_connect` (`camera_service.py` lines 328-367).
`now` is `time.time()` at the head of the call; `res` is the outcome of
the HTTP PUT.  Returns the boolean result together with the new state:
the throttle time `last_upload_time` is only written in the
`status_code == 200` branch. -/
def upload_to_prusa_connect (cfg : Config) (now : Int) (res : HttpResult)
    (s : ServiceState) : Bool × ServiceState :=
  if now - s.last_upload_time < cfg.upload_interval then (false, s)
  else if cfg.token_ok = false then (false, s)
  else
    match res with
    | .status code =>
        if code = 200 then (true, { s with last_upload_time := now })
        else (false, s)
    | .transportError => (false, s)

/-- Model of `_capture_image` (`camera_service.py` lines 243-326): start a session
if there is no session directory, increment the counter, generate the
filename from the pattern, then run the capture command.  On success the
file is written and, if Prusa Connect is enabled, an upload is attempted;
the path (directory, filename) is returned.  On a timeout or any other
failure of the command the `except` arms return `None` — with the counter
increment already performed.  The whole body is inside `try/except`, so
the function never raises; it is total here. -/
def capture_image (cfg : Config) (out : CaptureOutcome) (now : Int)
    (res : HttpResult) (s : ServiceState) : Option (Nat × String) × ServiceState :=
  let s1 := if s.current_session_dir = none then start_print_session s else s
  let s2 := { s1 with capture_counter := s1.capture_counter + 1 }
  let fname := cfg.filename_pattern s2.capture_counter
  match out with
  | .timeout => (none, s2)
  | .cmdError => (none, s2)
  | .success =>
      let dir := s2.current_session_dir.getD 0
      let s3 := { s2 with files := s2.files ++ [(dir, fname)] }
      let s4 := if cfg.prusa_enabled then (upload_to_prusa_connect cfg now res s3).2 else s3
      (some (dir, fname), s4)

/-- Model of `_on_gpio_trigger` (`camera_service.py` lines 170-189): ignore the
trigger when layer mode is disabled; otherwise start a session when none
is active, then capture. -/
def on_gpio_trigger (cfg : Config) (out : CaptureOutcome) (now : Int)
    (res : HttpResult) (s : ServiceState) : ServiceState :=
  if cfg.layer_enabled = false then s
  else
    let s1 := if s.print_active = false then start_print_session s else s
    (capture_image cfg out now res s1).2

/-- One iteration of `_time_based_capture_loop` (`camera_service.py`
lines 373-397): skip when time mode is disabled, or when captures are
gated on an active print and none is active; otherwise capture. -/
def time_tick (cfg : Config) (out : CaptureOutcome) (now : Int)
    (res : HttpResult) (s : ServiceState) : ServiceState :=
  if cfg.time_enabled = false then s
  else if cfg.only_during_print = true ∧ s.print_active = false then s
  else (capture_image cfg out now res s).2

/-- The operations that drive the service state: a GPIO (layer) trigger, a
periodic-capture tick, and an end-session request.  Each capture-bearing
operation carries the behaviour of the external world for that call. -/
inductive Op
  | gpio (out : CaptureOutcome) (now : Int) (res : HttpResult)
  | tick (out : CaptureOutcome) (now : Int) (res : HttpResult)
  | endSession

/-- Run one operation against the service state. -/
def runOp (cfg : Config) (s : ServiceState) : Op → ServiceState
  | .gpio out now res => on_gpio_trigger cfg out now res s
  | .tick out now res => time_tick cfg out now res s
  | .endSession => end_print_session s

/-- The recorded times of the successful uploads in a sequence of calls to
`_upload_to_prusa_connect`: each call is given by the clock value and HTTP
outcome at that call; a successful call records its `now` (which becomes
`last_upload_time`). -/
def uploadTimes (cfg : Config) (s : ServiceState) :
    List (Int × HttpResult) → List Int
  | [] => []
  | (now, res) :: rest =>
      let r := upload_to_prusa_connect cfg now res s
      if r.1 then now :: uploadTimes cfg r.2 rest
      else uploadTimes cfg r.2 rest

/-- Zero-pad a digit string to width `w`: Python's `{:05d}` for
non-negative values. -/
def zeroPad (w : Nat) (s : String) : String :=
  String.mk (List.replicate (w - s.length) '0' ++ s.data)

/-- The filename pattern `img_{counter:05d}.jpg` applied to a counter
value. -/
def fmt_counter_05d (c : Nat) : String :=
  "img_" ++ zeroPad 5 (Nat.repr c) ++ ".jpg"

/-- A configuration with layer and time capture enabled, time capture not
gated on an active print (`only_during_print: false`), and Prusa Connect
upload disabled. -/
def cfgUngated : Config :=
  { filename_pattern := fmt_counter_05d
    layer_enabled := true
    time_enabled := true
    only_during_print := false
    prusa_enabled := false
    token_ok := false
    upload_interval := 10 }

/-- A configuration with the default gating (`only_during_print: true`)
and uploads disabled, using the `img_{counter:05d}.jpg` pattern. -/
def cfgGated : Config :=
  { filename_pattern := fmt_counter_05d
    layer_enabled := true
    time_enabled := true
    only_during_print := true
    prusa_enabled := false
    token_ok := false
    upload_interval := 10 }

/-- A configuration for exercising the upload throttle: token configured,
upload interval 10. -/
def cfgUpload : Config :=
  { filename_pattern := fmt_counter_05d
    layer_enabled := true
    time_enabled := true
    only_during_print := true
    prusa_enabled := true
    token_ok := true
    upload_interval := 10 }

/-- A service state in the middle of an active session with 5 captures
taken. -/
def sMidSession : ServiceState :=
  { print_active := true
    capture_counter := 5
    current_session_dir := some 0
    next_dir := 1
    last_upload_time := 0
    files := []
    total_images := none }

/-- Trace for the ungated-periodic-capture scenario: a layer trigger (which
starts a session and captures), then an end-session request. -/
def traceEndedSession : ServiceState :=
  runOp cfgUngated (runOp cfgUngated initState (.gpio .success 0 (.status 200)))
    .endSession

/-- One ungated periodic capture after the session has ended. -/
def traceTickAfterEnd : ServiceState :=
  runOp cfgUngated traceEndedSession (.tick .success 30 (.status 200))

/-- Trace for the three-capture scenario: first layer trigger (starts the
session). -/
def traceCap1 : ServiceState :=
  runOp cfgGated initState (.gpio .success 0 (.status 200))

/-- Second layer trigger. -/
def traceCap2 : ServiceState :=
  runOp cfgGated traceCap1 (.gpio .success 1 (.status 200))

/-- Third layer trigger. -/
def traceCap3 : ServiceState :=
  runOp cfgGated traceCap2 (.gpio .success 2 (.status 200))

/-- Session end after the three captures. -/
def traceCapEnd : ServiceState :=
  runOp cfgGated traceCap3 .endSession

/-! ### Helper lemmas: the framing loop -/

theorem scanToEOI_rest_length_le (racc l : List Nat) :
    (scanToEOI racc l).2.length ≤ l.length := by
  induction l generalizing racc with
  | nil => simp [scanToEOI]
  | cons b rest ih =>
    simp only [scanToEOI]
    split
    · simp
    · exact le_trans (ih (b :: racc)) (Nat.le_succ _)

theorem scanToEOI_length (racc l : List Nat) :
    (scanToEOI racc l).1.length + (scanToEOI racc l).2.length
      = racc.length + l.length := by
  induction l generalizing racc with
  | nil => simp [scanToEOI]
  | cons b rest ih =>
    simp only [scanToEOI]
    split
    · simp only [List.length_reverse, List.length_cons, List.length_nil]
      omega
    · have := ih (b :: racc)
      simp only [List.length_cons] at this ⊢
      omega

theorem scanToEOI_starts (racc l : List Nat) :
    ∃ t, (scanToEOI racc l).1 = racc.reverse ++ t := by
  induction l generalizing racc with
  | nil => exact ⟨[], by simp [scanToEOI]⟩
  | cons b rest ih =>
    simp only [scanToEOI]
    split
    · exact ⟨[b], by simp⟩
    · obtain ⟨t, ht⟩ := ih (b :: racc)
      exact ⟨b :: t, by simpa using ht⟩

/-- The result of `streamLoop` does not depend on the fuel, as long as the
fuel is at least the stream length. -/
theorem streamLoop_fuel :
    ∀ f1 : Nat, ∀ s : List Nat, ∀ f2 : Nat, s.length ≤ f1 → s.length ≤ f2 →
      streamLoop f1 s = streamLoop f2 s := by
  intro f1
  induction f1 with
  | zero =>
    intro s f2 h1 _
    match s with
    | [] => cases f2 <;> rfl
  | succ f ih =>
    intro s f2 h1 h2
    match s, h1, h2 with
    | [], _, _ => cases f2 <;> rfl
    | [a], _, _ => cases f2 <;> rfl
    | b0 :: b1 :: rest, h1, h2 =>
      have hr : rest.length + 2 ≤ f2 := by simpa using h2
      match f2, hr with
      | f2 + 1, hr =>
        simp only [streamLoop]
        have hp := scanToEOI_rest_length_le [0xD8, 0xFF] rest
        have h1' : rest.length + 2 ≤ f + 1 := by simpa using h1
        split
        · split
          · exact ih (scanToEOI [0xD8, 0xFF] rest).2 f2 (by omega) (by omega)
          · rw [ih (scanToEOI [0xD8, 0xFF] rest).2 f2 (by omega) (by omega)]
        · exact ih rest f2 (by omega) (by omega)

theorem stream_video_nil : stream_video [] = [] := rfl

theorem stream_video_single (b : Nat) : stream_video [b] = [] := rfl

/-- One unfolding of the outer framing loop on a stream with at least two
bytes remaining. -/
theorem stream_video_cons (b0 b1 : Nat) (rest : List Nat) :
    stream_video (b0 :: b1 :: rest) =
      if b0 = 0xFF ∧ b1 = 0xD8 then
        if (scanToEOI [0xD8, 0xFF] rest).1.length < 100 then
          stream_video (scanToEOI [0xD8, 0xFF] rest).2
        else (scanToEOI [0xD8, 0xFF] rest).1 ::
          stream_video (scanToEOI [0xD8, 0xFF] rest).2
      else stream_video rest := by
  have hp := scanToEOI_rest_length_le [0xD8, 0xFF] rest
  show streamLoop (rest.length + 2) (b0 :: b1 :: rest) = _
  simp only [streamLoop]
  split
  · split
    · exact streamLoop_fuel _ _ _ (by omega) le_rfl
    · rw [streamLoop_fuel (rest.length + 1) (scanToEOI [0xD8, 0xFF] rest).2 _
        (by omega) le_rfl]
      rfl
  · exact streamLoop_fuel _ _ _ (by omega) le_rfl

/-- The outer loop steps over an even-length noise prefix none of whose
aligned 2-byte reads is the start marker. -/
theorem stream_video_skip :
    ∀ noise : List Nat, noAlignedStart noise = true →
      ∀ rest : List Nat, stream_video (noise ++ rest) = stream_video rest
  | [], _, rest => rfl
  | [_], h, _ => by simp [noAlignedStart] at h
  | a :: b :: t, h, rest => by
      rw [List.cons_append, List.cons_append, stream_video_cons]
      by_cases hc : a = 0xFF ∧ b = 0xD8
      · simp only [noAlignedStart, if_pos hc] at h
        exact absurd h (by decide)
      · rw [if_neg hc]
        have h' : noAlignedStart t = true := by
          simpa only [noAlignedStart, if_neg hc] using h
        exact stream_video_skip t h' rest

/-- The inner loop, started just after a start marker, consumes exactly up
to the first end marker: if the body holds no adjacent `0xFF 0xD9` pair
(also not one formed with the byte preceding the body), the scan stops at
the appended end marker and leaves the rest of the stream unread. -/
theorem scanToEOI_through :
    ∀ (body : List Nat) (p : Nat) (r rest : List Nat),
      hasPair 0xFF 0xD9 (p :: body) = false →
      scanToEOI (p :: r) (body ++ 0xFF :: 0xD9 :: rest)
        = ((p :: r).reverse ++ (body ++ [0xFF, 0xD9]), rest)
  | [], p, r, rest, _ => by
      simp only [List.nil_append, scanToEOI]
      rw [if_neg (by simp)]
      rw [if_pos (by simp)]
      simp
  | b :: body, p, r, rest, h => by
      have hc : ¬(p = 0xFF ∧ b = 0xD9) := by
        intro hx
        simp only [hasPair, if_pos hx] at h
        exact absurd h (by decide)
      have h' : hasPair 0xFF 0xD9 (b :: body) = false := by
        simpa only [hasPair, if_neg hc] using h
      simp only [List.cons_append, scanToEOI, List.append_eq]
      rw [if_neg (by
        intro hx
        exact hc ⟨by simpa using hx.2, hx.1⟩)]
      rw [scanToEOI_through body b (p :: r) rest h']
      simp

/-- A stream shorter than the 100-byte frame minimum produces no frames:
every candidate frame is built from bytes of the stream, so it is shorter
than 100 bytes and is dropped. -/
theorem streamLoop_eq_nil_of_short :
    ∀ (fuel : Nat) (s : List Nat), s.length < 100 → streamLoop fuel s = [] := by
  intro fuel
  induction fuel with
  | zero =>
    intro s _
    match s with
    | [] => rfl
    | [_] => rfl
    | _ :: _ :: _ => rfl
  | succ f ih =>
    intro s hs
    match s with
    | [] => rfl
    | [_] => rfl
    | b0 :: b1 :: rest =>
      have hlen := scanToEOI_length [0xD8, 0xFF] rest
      have hrest := scanToEOI_rest_length_le [0xD8, 0xFF] rest
      simp only [List.length_cons] at hs
      simp only [streamLoop]
      split
      · rw [if_pos (by simp only [List.length_cons, List.length_nil] at hlen; omega)]
        exact ih _ (by omega)
      · exact ih rest (by omega)

/-- Every frame the framing loop emits starts with the start marker and
has at least 100 bytes. -/
theorem streamLoop_frames_wf :
    ∀ (fuel : Nat) (s f : List Nat), f ∈ streamLoop fuel s →
      f.take 2 = [0xFF, 0xD8] ∧ 100 ≤ f.length := by
  intro fuel
  induction fuel with
  | zero =>
    intro s f hf
    match s with
    | [] => simp [streamLoop] at hf
    | [_] => simp [streamLoop] at hf
    | _ :: _ :: _ => simp [streamLoop] at hf
  | succ fl ih =>
    intro s f hf
    match s with
    | [] => simp [streamLoop] at hf
    | [_] => simp [streamLoop] at hf
    | b0 :: b1 :: rest =>
      simp only [streamLoop] at hf
      by_cases hm : b0 = 0xFF ∧ b1 = 0xD8
      · rw [if_pos hm] at hf
        by_cases hshort : (scanToEOI [0xD8, 0xFF] rest).1.length < 100
        · rw [if_pos hshort] at hf
          exact ih _ f hf
        · rw [if_neg hshort] at hf
          rcases List.mem_cons.mp hf with hf | hf
          · subst hf
            obtain ⟨t, ht⟩ := scanToEOI_starts [0xD8, 0xFF] rest
            refine ⟨?_, by omega⟩
            rw [ht]
            rfl
          · exact ih _ f hf
      · rw [if_neg hm] at hf
        exact ih _ f hf

theorem strBytes_append (a b : String) :
    strBytes (a ++ b) = strBytes a ++ strBytes b := by
  simp [strBytes, String.data_append]

theorem hasPair_cons_of_ne (x y a : Nat) (l : List Nat) (ha : a ≠ x)
    (h : hasPair x y l = false) : hasPair x y (a :: l) = false := by
  match l with
  | [] => rfl
  | b :: t =>
    simp only [hasPair]
    rw [if_neg (fun hx => ha hx.1)]
    exact h

/-! ### Claim theorems: the streaming path -/

/-- C2, counterexample.  A stream consisting of the start marker followed
by 100 filler bytes contains a start marker and no end marker, yet the
framing loop emits one frame — the truncated end-of-stream buffer
(102 bytes, above the 100-byte minimum).  The claim that such a stream
yields zero completed frames is false. -/
theorem truncated_tail_emitted_cex :
    hasPair 0xFF 0xD8 (0xFF :: 0xD8 :: List.replicate 100 0) = true
    ∧ hasPair 0xFF 0xD9 (0xFF :: 0xD8 :: List.replicate 100 0) = false
    ∧ stream_video (0xFF :: 0xD8 :: List.replicate 100 0)
        = [0xFF :: 0xD8 :: List.replicate 100 0] := by
  decide

/-- C2, amended.  For an input stream with a start marker and no
subsequent end marker, the framing loop emits zero completed frames
provided the stream (and hence any candidate buffer formed from it) is
shorter than the 100-byte minimum; a truncated end-of-stream buffer of at
least 100 bytes is written as a frame (see the counterexample). -/
theorem truncated_tail_short_no_frames (s : List Nat)
    (h1 : hasPair 0xFF 0xD8 s = true)
    (h2 : hasPair 0xFF 0xD9 s = false)
    (h3 : s.length < 100) : stream_video s = [] :=
  streamLoop_eq_nil_of_short s.length s h3

/-- Witness for `truncated_tail_short_no_frames` at a concrete stream. -/
theorem truncated_tail_short_no_frames_witness :
    stream_video [0xFF, 0xD8, 0, 0] = [] :=
  truncated_tail_short_no_frames [0xFF, 0xD8, 0, 0]
    (by decide) (by decide) (by decide)

/-- C3, counterexample.  `jpegA` is a well-formed 100-byte JPEG buffer
(start marker, 96 filler bytes holding no marker pair, end marker).  A
stream of one noise byte followed by two such buffers makes the outer
loop's 2-byte reads miss every start marker (the markers sit at odd
offsets), so the framing loop emits zero frames instead of the claimed
two. -/
theorem odd_noise_zero_frames_cex :
    jpegA = 0xFF :: 0xD8 :: List.replicate 96 0 ++ [0xFF, 0xD9]
    ∧ hasPair 0xFF 0xD9 (List.replicate 96 0) = false
    ∧ stream_video (0 :: (jpegA ++ jpegA)) = [] := by
  refine ⟨rfl, by decide, by decide⟩

/-- C3, amended.  For noise of even length none of whose 2-byte-aligned
reads is the start marker, followed by two well-formed marker-delimited
JPEG buffers whose bodies hold no end-marker pair and are long enough that
each buffer reaches the 100-byte minimum, the framing loop emits exactly
the two buffers, byte-identical. -/
theorem stream_two_frames (noise body1 body2 : List Nat)
    (hn : noAlignedStart noise = true)
    (h1 : hasPair 0xFF 0xD9 body1 = false)
    (h2 : hasPair 0xFF 0xD9 body2 = false)
    (hl1 : 96 ≤ body1.length) (hl2 : 96 ≤ body2.length) :
    stream_video (noise ++ (0xFF :: 0xD8 :: body1 ++ [0xFF, 0xD9])
        ++ (0xFF :: 0xD8 :: body2 ++ [0xFF, 0xD9]))
      = [0xFF :: 0xD8 :: body1 ++ [0xFF, 0xD9],
         0xFF :: 0xD8 :: body2 ++ [0xFF, 0xD9]] := by
  rw [List.append_assoc, stream_video_skip noise hn]
  have e1 : (0xFF :: 0xD8 :: body1 ++ [0xFF, 0xD9])
        ++ (0xFF :: 0xD8 :: body2 ++ [0xFF, 0xD9])
      = 0xFF :: 0xD8 ::
          (body1 ++ 0xFF :: 0xD9 :: (0xFF :: 0xD8 :: body2 ++ [0xFF, 0xD9])) := by
    simp
  rw [e1, stream_video_cons, if_pos ⟨rfl, rfl⟩,
    scanToEOI_through body1 0xD8 [0xFF] _
      (hasPair_cons_of_ne _ _ _ _ (by decide) h1)]
  have hlen1 : ¬(([0xD8, 0xFF].reverse ++ (body1 ++ [0xFF, 0xD9])) :
      List Nat).length < 100 := by
    simp only [List.length_append, List.length_reverse, List.length_cons,
      List.length_nil]
    omega
  rw [if_neg hlen1]
  have e2 : (0xFF : Nat) :: 0xD8 :: body2 ++ [0xFF, 0xD9]
      = 0xFF :: 0xD8 :: (body2 ++ 0xFF :: 0xD9 :: []) := by simp
  rw [e2, stream_video_cons, if_pos ⟨rfl, rfl⟩,
    scanToEOI_through body2 0xD8 [0xFF] []
      (hasPair_cons_of_ne _ _ _ _ (by decide) h2)]
  have hlen2 : ¬(([0xD8, 0xFF].reverse ++ (body2 ++ [0xFF, 0xD9])) :
      List Nat).length < 100 := by
    simp only [List.length_append, List.length_reverse, List.length_cons,
      List.length_nil]
    omega
  rw [if_neg hlen2]
  simp [stream_video_nil]

/-- Witness for `stream_two_frames` at a concrete stream. -/
theorem stream_two_frames_witness :
    stream_video ([0, 0] ++ (0xFF :: 0xD8 :: List.replicate 96 0 ++ [0xFF, 0xD9])
        ++ (0xFF :: 0xD8 :: List.replicate 96 0 ++ [0xFF, 0xD9]))
      = [0xFF :: 0xD8 :: List.replicate 96 0 ++ [0xFF, 0xD9],
         0xFF :: 0xD8 :: List.replicate 96 0 ++ [0xFF, 0xD9]] :=
  stream_two_frames [0, 0] (List.replicate 96 0) (List.replicate 96 0)
    (by decide) (by decide) (by decide) (by decide) (by decide)

/-- C8.  For every frame the framing loop emits, the bytes written to the
viewer connection are exactly the boundary line, the content-type header,
a content-length header whose value is the exact frame byte count, a blank
line, the raw frame bytes, and a trailing line separator, in that order. -/
theorem frame_write_multipart_exact (s f : List Nat)
    (hf : f ∈ stream_video s) : frameWrite f = multipartChunk f := by
  unfold frameWrite multipartChunk
  have e : ("Content-Length: " ++ toString f.length ++ "\r\n\r\n")
      = ("Content-Length: " ++ toString f.length ++ "\r\n") ++ "\r\n" := by
    have e2 : ("\r\n\r\n" : String) = "\r\n" ++ "\r\n" := by decide
    rw [e2, ← String.append_assoc]
  rw [e, strBytes_append]
  simp [List.append_assoc]

/-- Witness for `frame_write_multipart_exact` at a concrete emitted
frame. -/
theorem frame_write_multipart_exact_witness :
    frameWrite jpegA = multipartChunk jpegA :=
  frame_write_multipart_exact jpegA jpegA (by decide)

/-- C10.  Every frame the framing loop writes begins with the two start
marker bytes and is at least 100 bytes long: shorter candidate buffers
are discarded and never written. -/
theorem frames_start_marker_min_length (s f : List Nat)
    (hf : f ∈ stream_video s) :
    f.take 2 = [0xFF, 0xD8] ∧ 100 ≤ f.length :=
  streamLoop_frames_wf s.length s f hf

/-- Witness for `frames_start_marker_min_length` at a concrete emitted
frame. -/
theorem frames_start_marker_min_length_witness :
    jpegA.take 2 = [0xFF, 0xD8] ∧ 100 ≤ jpegA.length :=
  frames_start_marker_min_length jpegA jpegA (by decide)

/-! ### Helper lemmas: the capture service -/

theorem upload_counter (cfg : Config) (now : Int) (res : HttpResult)
    (s : ServiceState) :
    (upload_to_prusa_connect cfg now res s).2.capture_counter
      = s.capture_counter := by
  unfold upload_to_prusa_connect
  split
  · rfl
  · split
    · rfl
    · cases res with
      | status code =>
        dsimp only
        split <;> rfl
      | transportError => rfl

theorem upload_active (cfg : Config) (now : Int) (res : HttpResult)
    (s : ServiceState) :
    (upload_to_prusa_connect cfg now res s).2.print_active = s.print_active := by
  unfold upload_to_prusa_connect
  split
  · rfl
  · split
    · rfl
    · cases res with
      | status code =>
        dsimp only
        split <;> rfl
      | transportError => rfl

theorem upload_dir (cfg : Config) (now : Int) (res : HttpResult)
    (s : ServiceState) :
    (upload_to_prusa_connect cfg now res s).2.current_session_dir
      = s.current_session_dir := by
  unfold upload_to_prusa_connect
  split
  · rfl
  · split
    · rfl
    · cases res with
      | status code =>
        dsimp only
        split <;> rfl
      | transportError => rfl

theorem upload_files (cfg : Config) (now : Int) (res : HttpResult)
    (s : ServiceState) :
    (upload_to_prusa_connect cfg now res s).2.files = s.files := by
  unfold upload_to_prusa_connect
  split
  · rfl
  · split
    · rfl
    · cases res with
      | status code =>
        dsimp only
        split <;> rfl
      | transportError => rfl

/-- A successful upload passed the throttle check and recorded `now` as
the new `last_upload_time`. -/
theorem upload_true_spec (cfg : Config) (now : Int) (res : HttpResult)
    (s : ServiceState)
    (h : (upload_to_prusa_connect cfg now res s).1 = true) :
    cfg.upload_interval ≤ now - s.last_upload_time
    ∧ (upload_to_prusa_connect cfg now res s).2.last_upload_time = now := by
  unfold upload_to_prusa_connect at h ⊢
  by_cases h1 : now - s.last_upload_time < cfg.upload_interval
  · rw [if_pos h1] at h
    simp at h
  · rw [if_neg h1] at h ⊢
    by_cases h2 : cfg.token_ok = false
    · rw [if_pos h2] at h
      simp at h
    · rw [if_neg h2] at h ⊢
      cases res with
      | status code =>
        dsimp only at h ⊢
        by_cases h3 : code = 200
        · rw [if_pos h3] at h ⊢
          exact ⟨by omega, rfl⟩
        · rw [if_neg h3] at h
          simp at h
      | transportError =>
        dsimp only at h
        simp at h

/-- A successful upload means the HTTP transfer yielded status 200. -/
theorem upload_true_res (cfg : Config) (now : Int) (res : HttpResult)
    (s : ServiceState)
    (h : (upload_to_prusa_connect cfg now res s).1 = true) :
    res = .status 200 := by
  unfold upload_to_prusa_connect at h
  by_cases h1 : now - s.last_upload_time < cfg.upload_interval
  · rw [if_pos h1] at h
    simp at h
  · rw [if_neg h1] at h
    by_cases h2 : cfg.token_ok = false
    · rw [if_pos h2] at h
      simp at h
    · rw [if_neg h2] at h
      cases res with
      | status code =>
        dsimp only at h
        by_cases h3 : code = 200
        · rw [h3]
        · rw [if_neg h3] at h
          simp at h
      | transportError =>
        dsimp only at h
        simp at h

/-- An unsuccessful call leaves the throttle time unchanged. -/
theorem upload_false_lut (cfg : Config) (now : Int) (res : HttpResult)
    (s : ServiceState)
    (h : (upload_to_prusa_connect cfg now res s).1 = false) :
    (upload_to_prusa_connect cfg now res s).2.last_upload_time
      = s.last_upload_time := by
  unfold upload_to_prusa_connect at h ⊢
  by_cases h1 : now - s.last_upload_time < cfg.upload_interval
  · rw [if_pos h1]
  · rw [if_neg h1] at h ⊢
    by_cases h2 : cfg.token_ok = false
    · rw [if_pos h2]
    · rw [if_neg h2] at h ⊢
      cases res with
      | status code =>
        dsimp only at h ⊢
        by_cases h3 : code = 200
        · rw [if_pos h3] at h
          simp at h
        · rw [if_neg h3]
      | transportError => rfl

theorem capture_image_counter (cfg : Config) (out : CaptureOutcome) (now : Int)
    (res : HttpResult) (s : ServiceState) :
    (capture_image cfg out now res s).2.capture_counter
      = (if s.current_session_dir = none then 0 else s.capture_counter) + 1 := by
  unfold capture_image
  cases out with
  | timeout => split <;> simp [start_print_session]
  | cmdError => split <;> simp [start_print_session]
  | success =>
      by_cases hd : s.current_session_dir = none <;>
        by_cases hp : cfg.prusa_enabled = true <;>
          simp [hd, hp, upload_counter, start_print_session]

theorem capture_image_active (cfg : Config) (out : CaptureOutcome) (now : Int)
    (res : HttpResult) (s : ServiceState) :
    (capture_image cfg out now res s).2.print_active
      = (if s.current_session_dir = none then true else s.print_active) := by
  unfold capture_image
  cases out with
  | timeout => split <;> simp [start_print_session]
  | cmdError => split <;> simp [start_print_session]
  | success =>
      by_cases hd : s.current_session_dir = none <;>
        by_cases hp : cfg.prusa_enabled = true <;>
          simp [hd, hp, upload_active, start_print_session]

theorem start_dir (s : ServiceState) :
    (start_print_session s).current_session_dir = some s.next_dir := rfl

theorem start_counter (s : ServiceState) :
    (start_print_session s).capture_counter = 0 := rfl

theorem start_active (s : ServiceState) :
    (start_print_session s).print_active = true := rfl

theorem end_print_session_counter (s : ServiceState) :
    (end_print_session s).capture_counter = s.capture_counter := by
  unfold end_print_session
  split <;> rfl

theorem end_print_session_active (s : ServiceState) :
    (end_print_session s).print_active = false := by
  unfold end_print_session
  split
  · rename_i h
    simpa using h
  · rfl

/-- lower bound on every recorded successful upload time: each success is
at least one full interval after the throttle time the sequence started
from (requires a non-negative configured interval). -/
theorem uploadTimes_lower (cfg : Config) (hN : 0 ≤ cfg.upload_interval) :
    ∀ (calls : List (Int × HttpResult)) (s : ServiceState) (t : Int),
      t ∈ uploadTimes cfg s calls →
      s.last_upload_time + cfg.upload_interval ≤ t := by
  intro calls
  induction calls with
  | nil =>
    intro s t ht
    simp [uploadTimes] at ht
  | cons c rest ih =>
    intro s t ht
    obtain ⟨now, res⟩ := c
    simp only [uploadTimes] at ht
    by_cases hok : (upload_to_prusa_connect cfg now res s).1 = true
    · rw [if_pos hok] at ht
      obtain ⟨hint, hlut⟩ := upload_true_spec cfg now res s hok
      rcases List.mem_cons.mp ht with rfl | ht
      · omega
      · have h2 := ih _ _ ht
        rw [hlut] at h2
        omega
    · rw [if_neg hok] at ht
      have hlut := upload_false_lut cfg now res s (by simpa using hok)
      have h2 := ih _ _ ht
      rw [hlut] at h2
      exact h2

/-! ### Claim theorems: the capture service -/

/-- C1, counterexample.  In a mid-session state with 5 captures taken, a
capture whose external command times out leaves the counter at 6 and
returns no path: the counter is incremented before the capture attempt and
is not rolled back on failure, so a capture failure does change
`capture_counter`. -/
theorem capture_failure_counter_cex :
    sMidSession.capture_counter = 5
    ∧ (capture_image cfgGated .timeout 0 (.status 200) sMidSession).1 = none
    ∧ (capture_image cfgGated .timeout 0 (.status 200)
        sMidSession).2.capture_counter = 6 := by
  decide

/-- C1, amended.  When a session directory exists, a capture whose
external command fails (timeout or any other error) returns `None` and
leaves the capture counter incremented by exactly one: the increment at
the head of `_capture_image` precedes the `subprocess.run` call and is not
rolled back by the `except` arms. -/
theorem capture_failure_increments_counter (cfg : Config)
    (out : CaptureOutcome) (now : Int) (res : HttpResult) (s : ServiceState)
    (hdir : s.current_session_dir.isSome = true)
    (hfail : out ≠ .success) :
    (capture_image cfg out now res s).2.capture_counter = s.capture_counter + 1
    ∧ (capture_image cfg out now res s).1 = none := by
  have hd : ¬(s.current_session_dir = none) := by
    intro h
    rw [h] at hdir
    simp at hdir
  cases out with
  | success => exact absurd rfl hfail
  | timeout =>
    constructor
    · rw [capture_image_counter, if_neg hd]
    · simp [capture_image, hd]
  | cmdError =>
    constructor
    · rw [capture_image_counter, if_neg hd]
    · simp [capture_image, hd]

/-- Witness for `capture_failure_increments_counter` at a concrete
state. -/
theorem capture_failure_increments_counter_witness :
    (capture_image cfgGated .cmdError 0 .transportError
        sMidSession).2.capture_counter = sMidSession.capture_counter + 1
    ∧ (capture_image cfgGated .cmdError 0 .transportError sMidSession).1
        = none :=
  capture_failure_increments_counter cfgGated .cmdError 0 .transportError
    sMidSession (by decide) (by decide)

/-- C4, counterexample.  Sequence: layer trigger (session starts, one
capture), end-session, then an ungated periodic capture
(`only_during_print: false`).  After the end-session the service is idle
(`print_active = false`) but the session directory reference survives, so
the periodic capture increments `capture_counter` from 1 to 2 while no
session is active — refuting that the counter increases only while
`print_active` is true. -/
theorem counter_increase_inactive_cex :
    traceEndedSession.print_active = false
    ∧ traceEndedSession.capture_counter = 1
    ∧ traceTickAfterEnd.print_active = false
    ∧ traceTickAfterEnd.capture_counter = 2 := by
  decide

/-- C4, amended.  Across every trigger, end-session and periodic-capture
operation: the counter either stays, increments by one, or is freshly
reset by a step that creates a new session (in which case the step leaves
at most one capture recorded and an active session); an end-session step
never changes the counter; and a step that changes the counter while no
session is active before or after it is possible — but only when a
session directory persists from an ended session. -/
theorem counter_step_characterization (cfg : Config) (op : Op)
    (s : ServiceState) :
    ((runOp cfg s op).capture_counter = s.capture_counter
      ∨ (runOp cfg s op).capture_counter = s.capture_counter + 1
      ∨ ((runOp cfg s op).capture_counter ≤ 1
          ∧ (runOp cfg s op).print_active = true))
    ∧ (s.print_active = false → (runOp cfg s op).print_active = false →
        (runOp cfg s op).capture_counter ≠ s.capture_counter →
        s.current_session_dir.isSome = true)
    ∧ (op = .endSession →
        (runOp cfg s op).capture_counter = s.capture_counter) := by
  cases op with
  | endSession =>
    refine ⟨Or.inl (end_print_session_counter s), ?_, fun _ => end_print_session_counter s⟩
    intro _ _ hne
    exact absurd (end_print_session_counter s) hne
  | gpio out now res =>
    simp only [runOp, on_gpio_trigger]
    by_cases hl : cfg.layer_enabled = false
    · rw [if_pos hl]
      exact ⟨Or.inl rfl, fun _ _ hne => absurd rfl hne, fun h => by cases h⟩
    · rw [if_neg hl]
      by_cases ha : s.print_active = false
      · rw [if_pos ha]
        have hc := capture_image_counter cfg out now res (start_print_session s)
        have hact := capture_image_active cfg out now res (start_print_session s)
        rw [start_dir, start_counter] at hc
        rw [start_dir, start_active] at hact
        have hc1 : (capture_image cfg out now res
            (start_print_session s)).2.capture_counter = 1 := by
          rw [hc]
          split <;> rfl
        have ha1 : (capture_image cfg out now res
            (start_print_session s)).2.print_active = true := by
          rw [hact]
          split <;> rfl
        refine ⟨Or.inr (Or.inr ⟨by omega, ha1⟩), ?_, fun h => by cases h⟩
        intro _ hact' _
        rw [ha1] at hact'
        cases hact'
      · rw [if_neg ha]
        have hc := capture_image_counter cfg out now res s
        have hact := capture_image_active cfg out now res s
        refine ⟨?_, fun ha' => absurd ha' ha, fun h => by cases h⟩
        rw [hc]
        by_cases hd : s.current_session_dir = none
        · rw [if_pos hd]
          refine Or.inr (Or.inr ⟨by omega, ?_⟩)
          rw [hact, if_pos hd]
        · rw [if_neg hd]
          exact Or.inr (Or.inl rfl)
  | tick out now res =>
    simp only [runOp, time_tick]
    by_cases ht : cfg.time_enabled = false
    · rw [if_pos ht]
      exact ⟨Or.inl rfl, fun _ _ hne => absurd rfl hne, fun h => by cases h⟩
    · rw [if_neg ht]
      by_cases hg : cfg.only_during_print = true ∧ s.print_active = false
      · rw [if_pos hg]
        exact ⟨Or.inl rfl, fun _ _ hne => absurd rfl hne, fun h => by cases h⟩
      · rw [if_neg hg]
        have hc := capture_image_counter cfg out now res s
        have hact := capture_image_active cfg out now res s
        refine ⟨?_, ?_, fun h => by cases h⟩
        · rw [hc]
          by_cases hd : s.current_session_dir = none
          · rw [if_pos hd]
            refine Or.inr (Or.inr ⟨by omega, ?_⟩)
            rw [hact, if_pos hd]
          · rw [if_neg hd]
            exact Or.inr (Or.inl rfl)
        · intro _ hact' _
          rw [hact] at hact'
          by_cases hd : s.current_session_dir = none
          · rw [if_pos hd] at hact'
            cases hact'
          · exact Option.isSome_iff_ne_none.mpr hd

/-- Witness for `counter_step_characterization`: the end-session clause at
a concrete state. -/
theorem counter_step_characterization_witness :
    (runOp cfgGated sMidSession .endSession).capture_counter
      = sMidSession.capture_counter :=
  (counter_step_characterization cfgGated .endSession sMidSession).2.2 rfl

/-- C5.  For any non-negative configured upload interval and any sequence
of calls to `_upload_to_prusa_connect`, the recorded times of the
successful calls are pairwise at least one interval apart: no two
successful uploads are recorded with last-upload-time values closer than
the configured minimum. -/
theorem upload_throttle_pairwise (cfg : Config) (s : ServiceState)
    (calls : List (Int × HttpResult)) (hN : 0 ≤ cfg.upload_interval) :
    (uploadTimes cfg s calls).Pairwise
      (fun a b => a + cfg.upload_interval ≤ b) := by
  induction calls generalizing s with
  | nil => simp [uploadTimes]
  | cons c rest ih =>
    obtain ⟨now, res⟩ := c
    simp only [uploadTimes]
    by_cases hok : (upload_to_prusa_connect cfg now res s).1 = true
    · rw [if_pos hok]
      refine List.pairwise_cons.mpr ⟨?_, ih _⟩
      intro t ht
      have h1 := uploadTimes_lower cfg hN rest _ t ht
      rw [(upload_true_spec cfg now res s hok).2] at h1
      exact h1
    · rw [if_neg hok]
      exact ih _

/-- Witness for `upload_throttle_pairwise` at a concrete call sequence
(also evaluating the recorded times: the call at 105 is throttled). -/
theorem upload_throttle_pairwise_witness :
    uploadTimes cfgUpload initState
        [(100, .status 200), (105, .status 200), (112, .status 200)]
      = [100, 112]
    ∧ (uploadTimes cfgUpload initState
        [(100, .status 200), (105, .status 200), (112, .status 200)]).Pairwise
        (fun a b => a + cfgUpload.upload_interval ≤ b) :=
  ⟨by decide,
    upload_throttle_pairwise cfgUpload initState
      [(100, .status 200), (105, .status 200), (112, .status 200)]
      (by decide)⟩

/-- C6.  `last_upload_time` is advanced only by a call that returns
success, a call returns success only when the HTTP transfer yielded
status 200 (and then records `now`), an unsuccessful call leaves the
throttle time unchanged, and any outcome other than status 200 (non-2xx
response or transport error/exception) yields the soft failure `false`
— the function is total, so no exception propagates. -/
theorem upload_throttle_advance_iff (cfg : Config) (now : Int)
    (res : HttpResult) (s : ServiceState) :
    ((upload_to_prusa_connect cfg now res s).2.last_upload_time
        ≠ s.last_upload_time →
      (upload_to_prusa_connect cfg now res s).1 = true)
    ∧ ((upload_to_prusa_connect cfg now res s).1 = true →
        res = .status 200
        ∧ (upload_to_prusa_connect cfg now res s).2.last_upload_time = now)
    ∧ ((upload_to_prusa_connect cfg now res s).1 = false →
        (upload_to_prusa_connect cfg now res s).2.last_upload_time
          = s.last_upload_time)
    ∧ (res ≠ .status 200 → (upload_to_prusa_connect cfg now res s).1 = false) := by
  refine ⟨?_, ?_, ?_, ?_⟩
  · intro hne
    by_cases hok : (upload_to_prusa_connect cfg now res s).1 = true
    · exact hok
    · exact absurd (upload_false_lut cfg now res s (by simpa using hok)) hne
  · intro hok
    exact ⟨upload_true_res cfg now res s hok,
      (upload_true_spec cfg now res s hok).2⟩
  · intro hfail
    exact upload_false_lut cfg now res s hfail
  · intro hres
    by_cases hok : (upload_to_prusa_connect cfg now res s).1 = true
    · exact absurd (upload_true_res cfg now res s hok) hres
    · simpa using hok

/-- Witness for `upload_throttle_advance_iff`: a non-200 response at a
concrete state leaves the throttle time unchanged. -/
theorem upload_throttle_advance_iff_witness :
    (upload_to_prusa_connect cfgUpload 100 (.status 500)
        initState).2.last_upload_time = initState.last_upload_time :=
  (upload_throttle_advance_iff cfgUpload 100 (.status 500) initState).2.2.1
    ((upload_throttle_advance_iff cfgUpload 100 (.status 500) initState).2.2.2
      (by decide))

/-- C7.  `_capture_image` is a total function of the external outcome: a
successful command returns the path of the written file (which is recorded
among the written files), a timeout returns `None`, and any other command
failure returns `None`; no case raises. -/
theorem capture_image_outcomes (cfg : Config) (out : CaptureOutcome)
    (now : Int) (res : HttpResult) (s : ServiceState) :
    (out = .success → ∃ p, (capture_image cfg out now res s).1 = some p
        ∧ p ∈ (capture_image cfg out now res s).2.files)
    ∧ (out = .timeout → (capture_image cfg out now res s).1 = none)
    ∧ (out = .cmdError → (capture_image cfg out now res s).1 = none) := by
  refine ⟨?_, ?_, ?_⟩ <;> intro h <;> subst h
  · unfold capture_image
    by_cases hp : cfg.prusa_enabled = true <;>
      simp [hp, upload_files]
  · rfl
  · rfl

/-- Witness for `capture_image_outcomes`: a timed-out capture at a
concrete state returns no path. -/
theorem capture_image_outcomes_witness :
    (capture_image cfgGated .timeout 5 (.status 200) initState).1 = none :=
  (capture_image_outcomes cfgGated .timeout 5 (.status 200) initState).2.1 rfl

/-- C9.  With pattern `img_{counter:05d}.jpg`, three successful captures
in one session produce `img_00001.jpg`, `img_00002.jpg`, `img_00003.jpg`
in the session directory (directory 0, the session started by the first
trigger), and after the session ends the metadata records
`total_images = 3`. -/
theorem three_capture_scenario :
    traceCap1.current_session_dir = some 0
    ∧ traceCapEnd.files
        = [(0, "img_00001.jpg"), (0, "img_00002.jpg"), (0, "img_00003.jpg")]
    ∧ traceCapEnd.total_images = some 3 := by
  decide

end PrusaCam
